import Mathlib

/-!
Verification of the azkaban-cli client core (src/azkaban_cli/azkaban.py and
src/azkaban_cli/api.py) against its natural-language specification.

The embedding below translates the Python source into Lean:
* decoded JSON bodies become association lists of string keys to values
  (the classifier only ever inspects a flat object, and the one nested read,
  in fetch_schedule, goes exactly one level deep, so values are scalars or
  one flat object of scalars);
* raising an exception becomes returning an error through Except; both the
  repository's own exception classes (whose module is imported by
  azkaban.py; only their identity matters, so they are an enumeration here)
  and the Python runtime errors the code can hit (KeyError, NameError,
  ValueError, TypeError) are constructors of one Failure type;
* the HTTP transport is an oracle: each operation receives the Response the
  server would have produced, and returns the list of requests it issued
  together with the session state after the call and its outcome.
-/

/-- A scalar JSON value, as produced by decoding a response body. -/
inductive JScalar where
  | str (s : String)
  | num (n : Int)
  | boolean (b : Bool)
  | null
deriving DecidableEq, Repr

/-- A JSON value: a scalar, or one flat object of scalars.  The client never
reads deeper than one nested object (fetch_schedule reads
body.schedule.scheduleId), so this depth is enough to express every body
shape the code inspects. -/
inductive JVal where
  | scalar (v : JScalar)
  | obj (fields : List (String × JScalar))
deriving DecidableEq, Repr

/-- A decoded JSON object body (a Python dict): keys are unique in anything
an actual decode produces; lookups take the first match. -/
abbrev Json := List (String × JVal)

/-- Python dict membership / d.get(k): the first value bound to key k. -/
def jsonGet (j : Json) (k : String) : Option JVal :=
  (j.find? (fun p => p.1 = k)).map Prod.snd

/-- The exception classes imported by azkaban.py from azkaban_cli.exceptions.
Only their identity is relevant to the client logic, so they are modelled as
an enumeration. -/
inductive ExcKind where
  | SessionError
  | NotLoggedOnError
  | LoginError
  | UploadError
  | ScheduleError
  | FetchFlowsError
  | FetchJobsFromFlowError
  | FetchScheduleError
  | FetchSLAError
  | UnscheduleError
  | ExecuteError
  | CancelError
  | CreateError
  | AddPermissionError
  | RemovePermissionError
  | ChangePermissionError
  | FetchFlowExecutionError
  | FetchFlowExecutionUpdatesError
  | FetchExecutionsOfAFlowError
  | FetchExecutionJobsLogError
  | ResumeFlowExecutionError
  | FetchRunningExecutionsOfAFlowError
deriving DecidableEq, Repr

/-- What a call can fail with: one of the repository's exceptions carrying
its message (raised), or a Python runtime error (KeyError from a missing
dict key, NameError from an unbound name, ValueError from response.json()
on an undecodable body, TypeError from subscripting a non-dict). -/
inductive Failure where
  | raised (e : ExcKind) (msg : JVal)
  | keyError (k : String)
  | nameError (n : String)
  | valueError
  | typeError
deriving DecidableEq, Repr

deriving instance DecidableEq for Except

/-- An HTTP response as the operations see it: its text, and the outcome of
response.json() — some decoded object, or none when decoding raises
ValueError (non-JSON body). -/
structure Response where
  text : String
  jsonBody : Option Json
deriving DecidableEq, Repr

/-- response.json(): returns the decoded body or raises ValueError. -/
def response_json (r : Response) : Except Failure Json :=
  match r.jsonBody with
  | some j => .ok j
  | none => .error .valueError

/-- Split a character list on a separator; the result always has one chunk
more than there are separators, like str.split. -/
def splitOnChar (sep : Char) (cs : List Char) : List (List Char) :=
  match cs with
  | [] => [[]]
  | c :: rest =>
    match splitOnChar sep rest with
    | [] => [[]]
    | chunk :: chunks =>
      if c = sep then [] :: chunk :: chunks
      else (c :: chunk) :: chunks

/-- Drop one carriage return at the end of a line, so that a CRLF
terminator leaves no trace in the line. -/
def stripTrailingCR (cs : List Char) : List Char :=
  match cs.reverse with
  | '\r' :: rest => rest.reverse
  | _ => cs

/-- Python str.splitlines restricted to the newline forms the server emits:
splits on a line feed, treats a carriage return before it as part of the
terminator, and produces no trailing empty chunk. -/
def pySplitlines (s : String) : List String :=
  if s = "" then []
  else
    let parts := splitOnChar '\n' s.data
    let parts := if parts.getLast? = some [] then parts.dropLast else parts
    parts.map (fun cs => String.mk (stripTrailingCR cs))

/-- The literal marker line of the server's login page
(azkaban.py line 80). -/
def loginHtmlMarker : String :=
  "  <script type=\"text/javascript\" src=\"/js/azkaban/view/login.js\"></script>"

/-- Azkaban.__catch_login_html: raise SessionError(response.text) when the
login-page marker is one of the lines of the response text. -/
def catch_login_html (r : Response) : Except Failure Unit :=
  if loginHtmlMarker ∈ pySplitlines r.text then
    .error (.raised .SessionError (.scalar (.str r.text)))
  else
    .ok ()

/-- Azkaban.__catch_login_text: raise SessionError(response.text) when the
response text is exactly the server's missing-credentials string. -/
def catch_login_text (r : Response) : Except Failure Unit :=
  if r.text = "Login error. Need username and password" then
    .error (.raised .SessionError (.scalar (.str r.text)))
  else
    .ok ()

/-- Azkaban.__catch_login: the text check, then the html check. -/
def catch_login (r : Response) : Except Failure Unit :=
  match catch_login_text r with
  | .error f => .error f
  | .ok _ => catch_login_html r

/-- Azkaban.__catch_response_error_msg: when the key error is present,
raise SessionError for the value session, the operation's exception
carrying the value otherwise. -/
def catch_response_error_msg (exception : ExcKind) (response_json : Json) :
    Except Failure Unit :=
  match jsonGet response_json "error" with
  | none => .ok ()
  | some error_msg =>
    if error_msg = .scalar (.str "session") then
      .error (.raised .SessionError error_msg)
    else
      .error (.raised exception error_msg)

/-- Azkaban.__catch_response_status_error: when status equals error, raise
the operation's exception with the message field; the bracket access
raises KeyError when message is absent. -/
def catch_response_status_error (exception : ExcKind) (response_json : Json) :
    Except Failure Unit :=
  if jsonGet response_json "status" = some (.scalar (.str "error")) then
    match jsonGet response_json "message" with
    | some m => .error (.raised exception m)
    | none => .error (.keyError "message")
  else
    .ok ()

/-- Azkaban.__catch_empty_response: an empty decoded body raises the
operation's exception with the message Empty response. -/
def catch_empty_response (exception : ExcKind) (response_json : Json) :
    Except Failure Unit :=
  if response_json = [] then
    .error (.raised exception (.scalar (.str "Empty response")))
  else
    .ok ()

/-- The try/except around response.json() in __catch_response_error: a body
that fails to decode is treated as the empty object. -/
def decoded_or_empty (r : Response) : Json :=
  r.jsonBody.getD []

/-- Azkaban.__catch_response_error: the classification funnel.  Login text
and html checks, decode-or-empty, error-key check, status-key check, and,
unless the caller opted out, the emptiness check, in the source's order. -/
def catch_response_error (r : Response) (exception : ExcKind)
    (ignore_empty_responses : Bool) : Except Failure Unit :=
  match catch_login r with
  | .error f => .error f
  | .ok _ =>
    let response_json := decoded_or_empty r
    match catch_response_error_msg exception response_json with
    | .error f => .error f
    | .ok _ =>
      match catch_response_status_error exception response_json with
      | .error f => .error f
      | .ok _ =>
        if !ignore_empty_responses then
          catch_empty_response exception response_json
        else
          .ok ()

/-- The names of the steps of the classification funnel, for stating in
which order they are applied. -/
inductive Check where
  | loginText
  | loginHtml
  | decodeBody
  | errorKey
  | statusKey
  | emptiness
deriving DecidableEq, Repr

/-- catch_response_error instrumented to also record, in order, the funnel
steps it applied before returning; the structure mirrors
catch_response_error step for step, and catch_response_error_trace_spec
below proves the outcome component is the same function. -/
def catch_response_error_trace (r : Response) (exception : ExcKind)
    (ignore_empty_responses : Bool) : List Check × Except Failure Unit :=
  match catch_login_text r with
  | .error f => ([.loginText], .error f)
  | .ok _ =>
    match catch_login_html r with
    | .error f => ([.loginText, .loginHtml], .error f)
    | .ok _ =>
      let response_json := decoded_or_empty r
      match catch_response_error_msg exception response_json with
      | .error f => ([.loginText, .loginHtml, .decodeBody, .errorKey], .error f)
      | .ok _ =>
        match catch_response_status_error exception response_json with
        | .error f =>
          ([.loginText, .loginHtml, .decodeBody, .errorKey, .statusKey], .error f)
        | .ok _ =>
          if !ignore_empty_responses then
            ([.loginText, .loginHtml, .decodeBody, .errorKey, .statusKey, .emptiness],
             catch_empty_response exception response_json)
          else
            ([.loginText, .loginHtml, .decodeBody, .errorKey, .statusKey], .ok ())

/-- The five permission flags, with the key order of __options in
Azkaban.__check_group_permissions. -/
structure Perms where
  admin : Bool
  write : Bool
  read : Bool
  execute : Bool
  schedule : Bool
deriving DecidableEq, Repr

/-- A partial permission mapping as the caller passes it; Python truthiness
of the values is modelled by the Bool. -/
abbrev PermOptions := List (String × Bool)

/-- Lookup of one flag: the given value when the key is declared, False
otherwise. -/
def lookupFlag (permission_options : PermOptions) (k : String) : Bool :=
  ((permission_options.find? (fun p => p.1 = k)).map Prod.snd).getD false

/-- Azkaban.__check_group_permissions: fill the five flags (absent keys
become False); if all five are set admin stays the filled
values; if admin is set, force all five True; otherwise, when not all five
were filled True, force read True. -/
def check_group_permissions (permission_options : PermOptions) : Perms :=
  let filled_permission_options : Perms :=
    { admin := lookupFlag permission_options "admin"
      write := lookupFlag permission_options "write"
      read := lookupFlag permission_options "read"
      execute := lookupFlag permission_options "execute"
      schedule := lookupFlag permission_options "schedule" }
  let have_declared_options :=
    filled_permission_options.admin &&
    filled_permission_options.read &&
    filled_permission_options.write &&
    filled_permission_options.execute &&
    filled_permission_options.schedule
  if filled_permission_options.admin then
    { admin := true, write := true, read := true, execute := true, schedule := true }
  else if !have_declared_options then
    { filled_permission_options with read := true }
  else
    filled_permission_options

/-- HTTP method of an outbound call. -/
inductive Method where
  | get
  | post
deriving DecidableEq, Repr

/-- One outbound HTTP call as api.py builds it: method, full URL, the flat
query/form parameters, and the multipart file parts (name of the part and
name of the file sent; the bytes are not modelled). -/
structure Request where
  method : Method
  url : String
  params : List (String × JVal)
  files : List (String × String)
deriving DecidableEq, Repr

/-- dict.update: insert or overwrite each binding, keeping the position of
an overwritten key. -/
def dictInsert (d : List (String × JVal)) (k : String) (v : JVal) :
    List (String × JVal) :=
  if d.any (fun p => p.1 = k) then
    d.map (fun p => if p.1 = k then (k, v) else p)
  else
    d ++ [(k, v)]

/-- Apply dictInsert for every binding of the update, left to right. -/
def dictUpdate (d : List (String × JVal)) (kvs : List (String × JVal)) :
    List (String × JVal) :=
  kvs.foldl (fun acc p => dictInsert acc p.1 p.2) d

/-- os.path.basename for POSIX paths: the part after the final slash. -/
def os_path_basename (p : String) : String :=
  String.mk (((splitOnChar '/' p.data).getLast?).getD [])

/-- os.path.abspath, modelled for already-absolute, already-normalised
paths, where it is the identity; a relative path would depend on the
ambient working directory, which this embedding does not carry. -/
def os_path_abspath (p : String) : String := p

/-- Python truthiness of a decoded JSON value, as used by the filters over
execution options. -/
def jvalTruthy : JVal → Bool
  | .scalar (.str s) => !(s == "")
  | .scalar (.num n) => !(n == 0)
  | .scalar (.boolean b) => b
  | .scalar .null => false
  | .obj fields => !fields.isEmpty

/-- api.login_request: POST to the host root with the login action. -/
def login_request (host : String) (user : String) (password : String) :
    Request :=
  { method := .post
    url := host
    params := [("action", .scalar (.str "login")),
               ("username", .scalar (.str user)),
               ("password", .scalar (.str password))]
    files := [] }

/-- api.upload_request: POST the archive to the manager endpoint; the file
part is named after the basename of the archive path. -/
def upload_request (host : String) (session_id : JVal) (project : String)
    (zip_path : String) : Request :=
  { method := .post
    url := host ++ "/manager"
    params := [("session.id", session_id),
               ("ajax", .scalar (.str "upload")),
               ("project", .scalar (.str project))]
    files := [("file", os_path_basename zip_path)] }

/-- api.schedule_request: POST to the schedule endpoint; the execution
options are merged over the base form with dict.update. -/
def schedule_request (host : String) (session_id : JVal) (project : String)
    (flow : String) (cron : String)
    (execution_options : List (String × JVal)) : Request :=
  let data := [("session.id", session_id),
               ("ajax", .scalar (.str "scheduleCronFlow")),
               ("projectName", .scalar (.str project)),
               ("flow", .scalar (.str flow)),
               ("cronExpression", .scalar (.str cron))]
  { method := .post
    url := host ++ "/schedule"
    params := dictUpdate data execution_options
    files := [] }

/-- api.fetch_flows_request: GET the flows of a project. -/
def fetch_flows_request (host : String) (session_id : JVal)
    (project : String) : Request :=
  { method := .get
    url := host ++ "/manager"
    params := [("session.id", session_id),
               ("ajax", .scalar (.str "fetchprojectflows")),
               ("project", .scalar (.str project))]
    files := [] }

/-- api.fetch_executions_of_a_flow_request.  The source's parameter list
has no host, yet the body builds the URL from the name host: that name is
unbound, so every call raises NameError before any request exists. -/
def fetch_executions_of_a_flow_request (session_id : JVal) (project : String)
    (flow : String) (start : Int) (length : Int) : Except Failure Request :=
  .error (.nameError "host")

/-- api.fetch_jobs_from_flow_request: GET the flow graph of a flow. -/
def fetch_jobs_from_flow_request (host : String) (session_id : JVal)
    (project : String) (flow : String) : Request :=
  { method := .get
    url := host ++ "/manager"
    params := [("session.id", session_id),
               ("ajax", .scalar (.str "fetchflowgraph")),
               ("project", .scalar (.str project)),
               ("flow", .scalar (.str flow))]
    files := [] }

/-- api.fetch_schedule_request: GET the schedule of a flow. -/
def fetch_schedule_request (host : String) (session_id : JVal)
    (project_id : String) (flow : String) : Request :=
  { method := .get
    url := host ++ "/schedule"
    params := [("session.id", session_id),
               ("ajax", .scalar (.str "fetchSchedule")),
               ("projectId", .scalar (.str project_id)),
               ("flowId", .scalar (.str flow))]
    files := [] }

/-- api.unschedule_request: POST the schedule removal action. -/
def unschedule_request (host : String) (session_id : JVal)
    (schedule_id : String) : Request :=
  { method := .post
    url := host ++ "/schedule"
    params := [("session.id", session_id),
               ("action", .scalar (.str "removeSched")),
               ("scheduleId", .scalar (.str schedule_id))]
    files := [] }

/-- api.execute_request: GET the executor endpoint; the execution options
are merged over the base parameters with dict.update. -/
def execute_request (host : String) (session_id : JVal) (project : String)
    (flow : String) (execution_options : List (String × JVal)) : Request :=
  let params := [("session.id", session_id),
                 ("ajax", .scalar (.str "executeFlow")),
                 ("project", .scalar (.str project)),
                 ("flow", .scalar (.str flow))]
  { method := .get
    url := host ++ "/executor"
    params := dictUpdate params execution_options
    files := [] }

/-- api.cancel_request: GET the flow-cancel action. -/
def cancel_request (host : String) (session_id : JVal) (exec_id : String) :
    Request :=
  { method := .get
    url := host ++ "/executor"
    params := [("session.id", session_id),
               ("ajax", .scalar (.str "cancelFlow")),
               ("execid", .scalar (.str exec_id))]
    files := [] }

/-- api.create_request: POST the project-creation action. -/
def create_request (host : String) (session_id : JVal) (project : String)
    (description : String) : Request :=
  { method := .post
    url := host ++ "/manager"
    params := [("session.id", session_id),
               ("action", .scalar (.str "create")),
               ("name", .scalar (.str project)),
               ("description", .scalar (.str description))]
    files := [] }

/-- api.delete_request: GET the project-deletion endpoint. -/
def delete_request (host : String) (session_id : JVal) (project : String) :
    Request :=
  { method := .get
    url := host ++ "/manager"
    params := [("session.id", session_id),
               ("delete", .scalar (.str "true")),
               ("project", .scalar (.str project))]
    files := [] }

/-- api.fetch_projects_request: GET the all-projects index page. -/
def fetch_projects_request (host : String) (session_id : JVal) : Request :=
  { method := .get
    url := host ++ "/index?all"
    params := [("session.id", session_id)]
    files := [] }

/-- api.__call_permission_api: GET the manager endpoint with one of the
permission actions and the five permission flags. -/
def call_permission_api (host : String) (session_id : JVal)
    (operation : String) (project : String) (group : String)
    (permission_options : Perms) : Request :=
  { method := .get
    url := host ++ "/manager"
    params := [("session.id", session_id),
               ("ajax", .scalar (.str operation)),
               ("project", .scalar (.str project)),
               ("name", .scalar (.str group)),
               ("permissions[admin]", .scalar (.boolean permission_options.admin)),
               ("permissions[write]", .scalar (.boolean permission_options.write)),
               ("permissions[read]", .scalar (.boolean permission_options.read)),
               ("permissions[execute]", .scalar (.boolean permission_options.execute)),
               ("permissions[schedule]", .scalar (.boolean permission_options.schedule)),
               ("group", .scalar (.boolean true))]
    files := [] }

/-- api.add_permission_request: the permission call with the addPermission
action. -/
def add_permission_request (host : String) (session_id : JVal)
    (project : String) (group : String) (permission_options : Perms) :
    Request :=
  call_permission_api host session_id "addPermission" project group
    permission_options

/-- api.remove_permission_request: removing a group permission is the
changePermission action with every flag False. -/
def remove_permission_request (host : String) (session_id : JVal)
    (project : String) (group : String) : Request :=
  let permission_options : Perms :=
    { admin := false, read := false, write := false, execute := false,
      schedule := false }
  call_permission_api host session_id "changePermission" project group
    permission_options

/-- api.change_permission_request: the permission call with the
changePermission action. -/
def change_permission_request (host : String) (session_id : JVal)
    (project : String) (group : String) (permission_options : Perms) :
    Request :=
  call_permission_api host session_id "changePermission" project group
    permission_options

/-- api.fetch_sla_request: GET the SLA info of a schedule. -/
def fetch_sla_request (host : String) (session_id : JVal)
    (schedule_id : String) : Request :=
  { method := .get
    url := host ++ "/schedule"
    params := [("session.id", session_id),
               ("ajax", .scalar (.str "slaInfo")),
               ("scheduleId", .scalar (.str schedule_id))]
    files := [] }

/-- api.fetch_flow_execution_request: GET one flow execution. -/
def fetch_flow_execution_request (host : String) (session_id : JVal)
    (exec_id : String) : Request :=
  { method := .get
    url := host ++ "/executor"
    params := [("session.id", session_id),
               ("ajax", .scalar (.str "fetchexecflow")),
               ("execid", .scalar (.str exec_id))]
    files := [] }

/-- api.fetch_flow_execution_updates_request: GET the updates of a flow
execution. -/
def fetch_flow_execution_updates_request (host : String) (session_id : JVal)
    (exec_id : String) (last_update_time : String) : Request :=
  { method := .get
    url := host ++ "/executor"
    params := [("session.id", session_id),
               ("ajax", .scalar (.str "fetchexecflowupdate")),
               ("execid", .scalar (.str exec_id)),
               ("lastUpdateTime", .scalar (.str last_update_time))]
    files := [] }

/-- api.fetch_execution_job_log_request: GET a job's logs. -/
def fetch_execution_job_log_request (host : String) (session_id : JVal)
    (exec_id : String) (jobid : String) (offset : String) (length : String) :
    Request :=
  { method := .get
    url := host ++ "/executor"
    params := [("session.id", session_id),
               ("ajax", .scalar (.str "fetchExecJobLogs")),
               ("execid", .scalar (.str exec_id)),
               ("jobId", .scalar (.str jobid)),
               ("offset", .scalar (.str offset)),
               ("length", .scalar (.str length))]
    files := [] }

/-- api.resume_flow_execution: GET the flow-resume action. -/
def resume_flow_execution_request (host : String) (session_id : JVal)
    (exec_id : String) : Request :=
  { method := .get
    url := host ++ "/executor"
    params := [("session.id", session_id),
               ("ajax", .scalar (.str "resumeFlow")),
               ("execid", .scalar (.str exec_id))]
    files := [] }

/-- api.fetch_running_executions_of_a_flow_request: GET the running
executions of a flow. -/
def fetch_running_executions_of_a_flow_request (host : String)
    (session_id : JVal) (project : String) (flow : String) : Request :=
  { method := .get
    url := host ++ "/executor"
    params := [("session.id", session_id),
               ("ajax", .scalar (.str "getRunning")),
               ("project", .scalar (.str project)),
               ("flow", .scalar (.str flow))]
    files := [] }

/-- The session attributes of the Azkaban class: host, user, and the
session token, each None until a login succeeds.  The token is kept as the
decoded JSON value the login response carried. -/
structure SessionState where
  host : Option String
  user : Option String
  session_id : Option JVal
deriving DecidableEq, Repr

/-- Python truthiness of the session_id attribute (None is falsy, and so
are an empty string, zero, False, an empty object). -/
def jvalOptTruthy : Option JVal → Bool
  | none => false
  | some v => jvalTruthy v

/-- Azkaban.__validate_host: drop every trailing slash of the host.  The
source's while loop is expressed as stripping the leading slashes of the
reversed character list. -/
def validate_host (host : String) : String :=
  let rec stripSlashes : List Char → List Char
    | [] => []
    | c :: rest => if c = '/' then stripSlashes rest else c :: rest
  ⟨(stripSlashes host.data.reverse).reverse⟩

/-- Azkaban.__check_if_logged: raise NotLoggedOnError (it carries no
message; null stands for the empty argument list) when the session_id
attribute is falsy. -/
def check_if_logged (st : SessionState) : Except Failure Unit :=
  if !jvalOptTruthy st.session_id then
    .error (.raised .NotLoggedOnError (.scalar .null))
  else
    .ok ()

/-- Azkaban.set_logged_session: overwrite the three session attributes. -/
def set_logged_session (host : Option String) (user : Option String)
    (session_id : Option JVal) : SessionState :=
  { host := host, user := user, session_id := session_id }

/-- What an operation hands back to its caller on success: nothing, the
decoded body, or the raw text. -/
inductive OpResult where
  | unit
  | json (j : Json)
  | text (s : String)
deriving DecidableEq, Repr

/-- The observable effect of one operation call: the outbound requests it
issued (in order), the session state after the call, and its outcome. -/
abbrev OpOutcome := List Request × SessionState × Except Failure OpResult

/-- The host attribute as the operations pass it to the request builders;
it is always set when the session_id is (only login sets either). -/
def hostAttr (st : SessionState) : String :=
  st.host.getD ""

/-- The session_id attribute as passed to the request builders. -/
def sidAttr (st : SessionState) : JVal :=
  st.session_id.getD (.scalar .null)

/-- Reading one key of the decoded body with brackets: the value, or
KeyError. -/
def getKey (j : Json) (k : String) : Except Failure JVal :=
  match jsonGet j k with
  | some v => .ok v
  | none => .error (.keyError k)

/-- Python `x if x else d` for an optional string argument: None and the
empty string both fall back to the default. -/
def pyOr (o : Option String) (dflt : String) : String :=
  match o with
  | none => dflt
  | some s => if s = "" then dflt else s

/-- Azkaban.login: validate the host, issue the login request, classify the
response; only when it survives the funnel and carries session.id are the
host, user and token stored. -/
def op_login (host : String) (user : String) (password : String)
    (st : SessionState) (r : Response) : OpOutcome :=
  let valid_host := validate_host host
  let req := login_request valid_host user password
  ([req],
    match catch_response_error r .LoginError false with
    | .error f => (st, .error f)
    | .ok _ =>
      match response_json r with
      | .error f => (st, .error f)
      | .ok j =>
        match jsonGet j "session.id" with
        | none => (st, .error (.keyError "session.id"))
        | some sid =>
          (set_logged_session (some valid_host) (some user) (some sid),
           .ok .unit))

/-- Azkaban.logout: reset the three session attributes to None. -/
def op_logout (st : SessionState) : OpOutcome :=
  ([], set_logged_session none none none, .ok .unit)

/-- Azkaban.upload.  zip_result is the environment's outcome of
shutil.make_archive: the error message of the FileNotFoundError it raised,
or the path of the archive it created. -/
def op_upload (path : String) (project : Option String)
    (zip_name : Option String) (zip_result : Except String String)
    (st : SessionState) (r : Response) : OpOutcome :=
  match check_if_logged st with
  | .error f => ([], st, .error f)
  | .ok _ =>
    let project := pyOr project (os_path_basename (os_path_abspath path))
    let _zip_name := pyOr zip_name project
    match zip_result with
    | .error e => ([], st, .error (.raised .UploadError (.scalar (.str e))))
    | .ok zip_path =>
      let req := upload_request (hostAttr st) (sidAttr st) project zip_path
      ([req], st,
        match catch_response_error r .UploadError false with
        | .error f => .error f
        | .ok _ =>
          match response_json r with
          | .error f => .error f
          | .ok j =>
            match getKey j "version" with
            | .error f => .error f
            | .ok _ => .ok .unit)

/-- Azkaban.schedule: filter the falsy execution options, issue the
schedule request, classify, then log the message and scheduleId fields. -/
def op_schedule (project : String) (flow : String) (cron : String)
    (execution_options : List (String × JVal)) (st : SessionState)
    (r : Response) : OpOutcome :=
  match check_if_logged st with
  | .error f => ([], st, .error f)
  | .ok _ =>
    let execution_options := execution_options.filter (fun p => jvalTruthy p.2)
    let req := schedule_request (hostAttr st) (sidAttr st) project flow cron
      execution_options
    ([req], st,
      match catch_response_error r .ScheduleError false with
      | .error f => .error f
      | .ok _ =>
        match response_json r with
        | .error f => .error f
        | .ok j =>
          match getKey j "message" with
          | .error f => .error f
          | .ok _ =>
            match getKey j "scheduleId" with
            | .error f => .error f
            | .ok _ => .ok .unit)

/-- Azkaban.fetch_flows: classify, log the projectId field, return the
decoded body. -/
def op_fetch_flows (project : String) (st : SessionState) (r : Response) :
    OpOutcome :=
  match check_if_logged st with
  | .error f => ([], st, .error f)
  | .ok _ =>
    let req := fetch_flows_request (hostAttr st) (sidAttr st) project
    ([req], st,
      match catch_response_error r .FetchFlowsError false with
      | .error f => .error f
      | .ok _ =>
        match response_json r with
        | .error f => .error f
        | .ok j =>
          match getKey j "projectId" with
          | .error f => .error f
          | .ok _ => .ok (.json j))

/-- Azkaban.fetch_jobs_from_flow: classify and return the decoded body. -/
def op_fetch_jobs_from_flow (project : String) (flow : String)
    (st : SessionState) (r : Response) : OpOutcome :=
  match check_if_logged st with
  | .error f => ([], st, .error f)
  | .ok _ =>
    let req := fetch_jobs_from_flow_request (hostAttr st) (sidAttr st)
      project flow
    ([req], st,
      match catch_response_error r .FetchJobsFromFlowError false with
      | .error f => .error f
      | .ok _ =>
        match response_json r with
        | .error f => .error f
        | .ok j => .ok (.json j))

/-- Azkaban.fetch_schedule: classify, log body.schedule.scheduleId (reading
a scalar with brackets is TypeError, a missing key KeyError), return the
decoded body. -/
def op_fetch_schedule (project_id : String) (flow : String)
    (st : SessionState) (r : Response) : OpOutcome :=
  match check_if_logged st with
  | .error f => ([], st, .error f)
  | .ok _ =>
    let req := fetch_schedule_request (hostAttr st) (sidAttr st) project_id
      flow
    ([req], st,
      match catch_response_error r .FetchScheduleError false with
      | .error f => .error f
      | .ok _ =>
        match response_json r with
        | .error f => .error f
        | .ok j =>
          match getKey j "schedule" with
          | .error f => .error f
          | .ok v =>
            match v with
            | .obj fields =>
              match fields.find? (fun p => p.1 = "scheduleId") with
              | some _ => .ok (.json j)
              | none => .error (.keyError "scheduleId")
            | .scalar _ => .error .typeError)

/-- Azkaban.unschedule: classify and log the message field. -/
def op_unschedule (schedule_id : String) (st : SessionState) (r : Response) :
    OpOutcome :=
  match check_if_logged st with
  | .error f => ([], st, .error f)
  | .ok _ =>
    let req := unschedule_request (hostAttr st) (sidAttr st) schedule_id
    ([req], st,
      match catch_response_error r .UnscheduleError false with
      | .error f => .error f
      | .ok _ =>
        match response_json r with
        | .error f => .error f
        | .ok j =>
          match getKey j "message" with
          | .error f => .error f
          | .ok _ => .ok .unit)

/-- Azkaban.execute: filter the falsy execution options, issue the execute
request, classify, log the message field. -/
def op_execute (project : String) (flow : String)
    (execution_options : List (String × JVal)) (st : SessionState)
    (r : Response) : OpOutcome :=
  match check_if_logged st with
  | .error f => ([], st, .error f)
  | .ok _ =>
    let execution_options := execution_options.filter (fun p => jvalTruthy p.2)
    let req := execute_request (hostAttr st) (sidAttr st) project flow
      execution_options
    ([req], st,
      match catch_response_error r .ExecuteError false with
      | .error f => .error f
      | .ok _ =>
        match response_json r with
        | .error f => .error f
        | .ok j =>
          match getKey j "message" with
          | .error f => .error f
          | .ok _ => .ok .unit)

/-- Azkaban.cancel: classify; nothing of the body is read afterwards. -/
def op_cancel (execution_id : String) (st : SessionState) (r : Response) :
    OpOutcome :=
  match check_if_logged st with
  | .error f => ([], st, .error f)
  | .ok _ =>
    let req := cancel_request (hostAttr st) (sidAttr st) execution_id
    ([req], st,
      match catch_response_error r .CancelError false with
      | .error f => .error f
      | .ok _ => .ok .unit)

/-- Azkaban.create: classify; nothing of the body is read afterwards. -/
def op_create (project : String) (description : String) (st : SessionState)
    (r : Response) : OpOutcome :=
  match check_if_logged st with
  | .error f => ([], st, .error f)
  | .ok _ =>
    let req := create_request (hostAttr st) (sidAttr st) project description
    ([req], st,
      match catch_response_error r .CreateError false with
      | .error f => .error f
      | .ok _ => .ok .unit)

/-- Azkaban.delete: issue the delete request and return; the response is
never classified (the delete request does not return any message). -/
def op_delete (project : String) (st : SessionState) (r : Response) :
    OpOutcome :=
  match check_if_logged st with
  | .error f => ([], st, .error f)
  | .ok _ =>
    let req := delete_request (hostAttr st) (sidAttr st) project
    ([req], st, .ok .unit)

/-- Azkaban.fetch_projects: only the login checks run (the reply is html),
then the raw text is returned. -/
def op_fetch_projects (st : SessionState) (r : Response) : OpOutcome :=
  match check_if_logged st with
  | .error f => ([], st, .error f)
  | .ok _ =>
    let req := fetch_projects_request (hostAttr st) (sidAttr st)
    ([req], st,
      match catch_login r with
      | .error f => .error f
      | .ok _ => .ok (.text r.text))

/-- Azkaban.add_permission: normalize the flags, issue the permission
request, classify ignoring empty bodies. -/
def op_add_permission (project : String) (group : String)
    (permission_options : PermOptions) (st : SessionState) (r : Response) :
    OpOutcome :=
  match check_if_logged st with
  | .error f => ([], st, .error f)
  | .ok _ =>
    let permission_options := check_group_permissions permission_options
    let req := add_permission_request (hostAttr st) (sidAttr st) project
      group permission_options
    ([req], st,
      match catch_response_error r .AddPermissionError true with
      | .error f => .error f
      | .ok _ => .ok .unit)

/-- Azkaban.remove_permission: issue the permission request (the api layer
sends every flag False), classify ignoring empty bodies. -/
def op_remove_permission (project : String) (group : String)
    (st : SessionState) (r : Response) : OpOutcome :=
  match check_if_logged st with
  | .error f => ([], st, .error f)
  | .ok _ =>
    let req := remove_permission_request (hostAttr st) (sidAttr st) project
      group
    ([req], st,
      match catch_response_error r .RemovePermissionError true with
      | .error f => .error f
      | .ok _ => .ok .unit)

/-- Azkaban.change_permission: normalize the flags, issue the permission
request, classify ignoring empty bodies. -/
def op_change_permission (project : String) (group : String)
    (permission_options : PermOptions) (st : SessionState) (r : Response) :
    OpOutcome :=
  match check_if_logged st with
  | .error f => ([], st, .error f)
  | .ok _ =>
    let permission_options := check_group_permissions permission_options
    let req := change_permission_request (hostAttr st) (sidAttr st) project
      group permission_options
    ([req], st,
      match catch_response_error r .ChangePermissionError true with
      | .error f => .error f
      | .ok _ => .ok .unit)

/-- Azkaban.fetch_sla: classify and return the decoded body. -/
def op_fetch_sla (schedule_id : String) (st : SessionState) (r : Response) :
    OpOutcome :=
  match check_if_logged st with
  | .error f => ([], st, .error f)
  | .ok _ =>
    let req := fetch_sla_request (hostAttr st) (sidAttr st) schedule_id
    ([req], st,
      match catch_response_error r .FetchSLAError false with
      | .error f => .error f
      | .ok _ =>
        match response_json r with
        | .error f => .error f
        | .ok j => .ok (.json j))

/-- Azkaban.fetch_flow_execution: classify and return the decoded body. -/
def op_fetch_flow_execution (execution_id : String) (st : SessionState)
    (r : Response) : OpOutcome :=
  match check_if_logged st with
  | .error f => ([], st, .error f)
  | .ok _ =>
    let req := fetch_flow_execution_request (hostAttr st) (sidAttr st)
      execution_id
    ([req], st,
      match catch_response_error r .FetchFlowExecutionError false with
      | .error f => .error f
      | .ok _ =>
        match response_json r with
        | .error f => .error f
        | .ok j => .ok (.json j))

/-- Azkaban.fetch_flow_execution_updates: classify and return the decoded
body. -/
def op_fetch_flow_execution_updates (execution_id : String)
    (last_update_time : String) (st : SessionState) (r : Response) :
    OpOutcome :=
  match check_if_logged st with
  | .error f => ([], st, .error f)
  | .ok _ =>
    let req := fetch_flow_execution_updates_request (hostAttr st)
      (sidAttr st) execution_id last_update_time
    ([req], st,
      match catch_response_error r .FetchFlowExecutionUpdatesError false with
      | .error f => .error f
      | .ok _ =>
        match response_json r with
        | .error f => .error f
        | .ok j => .ok (.json j))

/-- Azkaban.fetch_executions_of_a_flow: the api builder it calls raises
NameError on the unbound name host, so the call fails with no request
issued and the response is never classified. -/
def op_fetch_executions_of_a_flow (project : String) (flow : String)
    (start : Int) (length : Int) (st : SessionState) (r : Response) :
    OpOutcome :=
  match check_if_logged st with
  | .error f => ([], st, .error f)
  | .ok _ =>
    match fetch_executions_of_a_flow_request (sidAttr st) project flow start
      length with
    | .error f => ([], st, .error f)
    | .ok req =>
      ([req], st,
        match catch_response_error r .FetchExecutionsOfAFlowError false with
        | .error f => .error f
        | .ok _ =>
          match response_json r with
          | .error f => .error f
          | .ok j => .ok (.json j))

/-- Azkaban.fetch_execution_job_log: classify and return the decoded
body. -/
def op_fetch_execution_job_log (execution_id : String) (jobid : String)
    (offset : String) (length : String) (st : SessionState) (r : Response) :
    OpOutcome :=
  match check_if_logged st with
  | .error f => ([], st, .error f)
  | .ok _ =>
    let req := fetch_execution_job_log_request (hostAttr st) (sidAttr st)
      execution_id jobid offset length
    ([req], st,
      match catch_response_error r .FetchExecutionJobsLogError false with
      | .error f => .error f
      | .ok _ =>
        match response_json r with
        | .error f => .error f
        | .ok j => .ok (.json j))

/-- Azkaban.resume_flow_execution: classify ignoring empty bodies, then
return response.json() (which raises ValueError on an undecodable
body). -/
def op_resume_flow_execution (execution_id : String) (st : SessionState)
    (r : Response) : OpOutcome :=
  match check_if_logged st with
  | .error f => ([], st, .error f)
  | .ok _ =>
    let req := resume_flow_execution_request (hostAttr st) (sidAttr st)
      execution_id
    ([req], st,
      match catch_response_error r .ResumeFlowExecutionError true with
      | .error f => .error f
      | .ok _ =>
        match response_json r with
        | .error f => .error f
        | .ok j => .ok (.json j))

/-- Azkaban.fetch_running_executions_of_a_flow: classify and return the
decoded body. -/
def op_fetch_running_executions_of_a_flow (project : String) (flow : String)
    (st : SessionState) (r : Response) : OpOutcome :=
  match check_if_logged st with
  | .error f => ([], st, .error f)
  | .ok _ =>
    let req := fetch_running_executions_of_a_flow_request (hostAttr st)
      (sidAttr st) project flow
    ([req], st,
      match catch_response_error r .FetchRunningExecutionsOfAFlowError false
        with
      | .error f => .error f
      | .ok _ =>
        match response_json r with
        | .error f => .error f
        | .ok j => .ok (.json j))

/-- The operations of the Azkaban class, each constructor carrying the
arguments of the corresponding method (for upload, also the outcome the
environment gives shutil.make_archive). -/
inductive Op where
  | login (host : String) (user : String) (password : String)
  | logout
  | upload (path : String) (project : Option String)
      (zip_name : Option String) (zip_result : Except String String)
  | schedule (project : String) (flow : String) (cron : String)
      (execution_options : List (String × JVal))
  | fetch_flows (project : String)
  | fetch_jobs_from_flow (project : String) (flow : String)
  | fetch_schedule (project_id : String) (flow : String)
  | unschedule (schedule_id : String)
  | execute (project : String) (flow : String)
      (execution_options : List (String × JVal))
  | cancel (execution_id : String)
  | create (project : String) (description : String)
  | delete (project : String)
  | fetch_projects
  | add_permission (project : String) (group : String)
      (permission_options : PermOptions)
  | remove_permission (project : String) (group : String)
  | change_permission (project : String) (group : String)
      (permission_options : PermOptions)
  | fetch_sla (schedule_id : String)
  | fetch_flow_execution (execution_id : String)
  | fetch_flow_execution_updates (execution_id : String)
      (last_update_time : String)
  | fetch_executions_of_a_flow (project : String) (flow : String)
      (start : Int) (length : Int)
  | fetch_execution_job_log (execution_id : String) (jobid : String)
      (offset : String) (length : String)
  | resume_flow_execution (execution_id : String)
  | fetch_running_executions_of_a_flow (project : String) (flow : String)

/-- Run one operation against a state and the response the transport would
deliver. -/
def invoke : Op → SessionState → Response → OpOutcome
  | .login host user password, st, r => op_login host user password st r
  | .logout, st, _ => op_logout st
  | .upload path project zip_name zip_result, st, r =>
    op_upload path project zip_name zip_result st r
  | .schedule project flow cron opts, st, r =>
    op_schedule project flow cron opts st r
  | .fetch_flows project, st, r => op_fetch_flows project st r
  | .fetch_jobs_from_flow project flow, st, r =>
    op_fetch_jobs_from_flow project flow st r
  | .fetch_schedule project_id flow, st, r =>
    op_fetch_schedule project_id flow st r
  | .unschedule schedule_id, st, r => op_unschedule schedule_id st r
  | .execute project flow opts, st, r => op_execute project flow opts st r
  | .cancel execution_id, st, r => op_cancel execution_id st r
  | .create project description, st, r => op_create project description st r
  | .delete project, st, r => op_delete project st r
  | .fetch_projects, st, r => op_fetch_projects st r
  | .add_permission project group opts, st, r =>
    op_add_permission project group opts st r
  | .remove_permission project group, st, r =>
    op_remove_permission project group st r
  | .change_permission project group opts, st, r =>
    op_change_permission project group opts st r
  | .fetch_sla schedule_id, st, r => op_fetch_sla schedule_id st r
  | .fetch_flow_execution execution_id, st, r =>
    op_fetch_flow_execution execution_id st r
  | .fetch_flow_execution_updates execution_id last_update_time, st, r =>
    op_fetch_flow_execution_updates execution_id last_update_time st r
  | .fetch_executions_of_a_flow project flow start length, st, r =>
    op_fetch_executions_of_a_flow project flow start length st r
  | .fetch_execution_job_log execution_id jobid offset length, st, r =>
    op_fetch_execution_job_log execution_id jobid offset length st r
  | .resume_flow_execution execution_id, st, r =>
    op_resume_flow_execution execution_id st r
  | .fetch_running_executions_of_a_flow project flow, st, r =>
    op_fetch_running_executions_of_a_flow project flow st r

/-- The two operations that do not require an active session. -/
def Op.isAuthExempt : Op → Bool
  | .login _ _ _ => true
  | .logout => true
  | _ => false

/-- A logged-in session state used by the concrete instances below. -/
def stLogged : SessionState :=
  { host := some "http://azkaban.example"
    user := some "user"
    session_id := some (.scalar (.str "sid-123")) }

/-- The empty session state (as constructed, or after logout). -/
def stLoggedOut : SessionState :=
  { host := none, user := none, session_id := none }

/-- A response whose decoded body binds error to session. -/
def respErrorSession : Response :=
  { text := "x", jsonBody := some [("error", .scalar (.str "session"))] }

/-- A benign response that survives every funnel check. -/
def respBenign : Response :=
  { text := "ok", jsonBody := some [("status", .scalar (.str "success"))] }

/-- A response whose decoded body is the empty object. -/
def respEmptyObj : Response :=
  { text := "", jsonBody := some [] }

/-- Modelled from the spec: the order in which section 4.2 lists the funnel
steps — login-page html detection first, then the literal login-failure
text, then body decoding, the error-key check, the status-key check and
the emptiness check. -/
def spec_check_order : List Check :=
  [.loginHtml, .loginText, .decodeBody, .errorKey, .statusKey, .emptiness]

/-- Every failure of the combined login checks is a SessionError (both the
text check and the html marker check raise SessionError with the response
text). -/
theorem catch_login_failures_are_session_errors (r : Response) (f : Failure)
    (h : catch_login r = .error f) : ∃ m, f = .raised .SessionError m := by
  unfold catch_login catch_login_text catch_login_html at h
  by_cases h1 : r.text = "Login error. Need username and password"
  · simp [h1] at h
    exact ⟨_, h.symm⟩
  · by_cases h2 : loginHtmlMarker ∈ pySplitlines r.text
    · simp [h1, h2] at h
      exact ⟨_, h.symm⟩
    · simp [h1, h2] at h

/-- The instrumented classifier computes the same outcome as the
classifier. -/
theorem catch_response_error_trace_spec (r : Response) (e : ExcKind)
    (i : Bool) :
    (catch_response_error_trace r e i).2 = catch_response_error r e i := by
  unfold catch_response_error_trace catch_response_error catch_login
  cases h1 : catch_login_text r with
  | error f => rfl
  | ok u =>
    cases h2 : catch_login_html r with
    | error f => rfl
    | ok u =>
      dsimp only
      cases h3 : catch_response_error_msg e (decoded_or_empty r) with
      | error f => rfl
      | ok u =>
        cases h4 : catch_response_status_error e (decoded_or_empty r) with
        | error f => rfl
        | ok u =>
          cases i with
          | true => rfl
          | false => rfl

/-- The sequence of checks the classifier applies always starts with the
login-text check and is an initial segment of the source's fixed order:
text, html, decode, error key, status key, emptiness. -/
theorem catch_response_error_trace_order (r : Response) (e : ExcKind)
    (i : Bool) :
    (catch_response_error_trace r e i).1.head? = some .loginText ∧
    ∃ rest, (catch_response_error_trace r e i).1 ++ rest =
      [.loginText, .loginHtml, .decodeBody, .errorKey, .statusKey, .emptiness] := by
  unfold catch_response_error_trace
  cases h1 : catch_login_text r with
  | error f =>
    exact ⟨rfl, ⟨[.loginHtml, .decodeBody, .errorKey, .statusKey, .emptiness], rfl⟩⟩
  | ok u =>
    cases h2 : catch_login_html r with
    | error f => exact ⟨rfl, ⟨[.decodeBody, .errorKey, .statusKey, .emptiness], rfl⟩⟩
    | ok u =>
      dsimp only
      cases h3 : catch_response_error_msg e (decoded_or_empty r) with
      | error f => exact ⟨rfl, ⟨[.statusKey, .emptiness], rfl⟩⟩
      | ok u =>
        cases h4 : catch_response_status_error e (decoded_or_empty r) with
        | error f => exact ⟨rfl, ⟨[.emptiness], rfl⟩⟩
        | ok u =>
          cases i with
          | true => exact ⟨rfl, ⟨[.emptiness], rfl⟩⟩
          | false => exact ⟨rfl, ⟨[], rfl⟩⟩

/-- A response that passes both login checks and whose body decodes to the
empty object (or does not decode at all) makes the classifier raise the
invoking operation's exception with the message Empty response, whenever
the caller did not opt out of the emptiness check. -/
theorem classifier_raises_empty_response (e : ExcKind) (r : Response)
    (hl : catch_login r = .ok ()) (hj : decoded_or_empty r = []) :
    catch_response_error r e false =
      .error (.raised e (.scalar (.str "Empty response"))) := by
  simp [catch_response_error, hl, hj, catch_response_error_msg,
    catch_response_status_error, catch_empty_response, jsonGet]

/-- C1 (counterexample): the delete operation, invoked logged in on a
response whose decoded body binds error to session, returns normally
instead of raising SessionError — it never classifies its response. -/
theorem delete_ignores_error_session_body :
    invoke (.delete "project") stLogged respErrorSession =
      ([delete_request "http://azkaban.example" (.scalar (.str "sid-123")) "project"],
       stLogged, .ok .unit) := by decide

/-- C1 (amended): whenever the classification funnel runs on a response
whose decoded body binds error to session it raises SessionError, whatever
exception kind (operation) invoked it; but delete, which never classifies,
returns normally on such a response, and fetch_projects, which applies
only the login checks, returns the raw text. -/
theorem error_session_body_raises_session_error :
    (∀ (exception : ExcKind) (ign : Bool) (r : Response),
      jsonGet (decoded_or_empty r) "error" = some (.scalar (.str "session")) →
      ∃ m, catch_response_error r exception ign =
        .error (.raised .SessionError m)) ∧
    (∀ (project : String) (st : SessionState) (r : Response),
      jvalOptTruthy st.session_id = true →
      jsonGet (decoded_or_empty r) "error" = some (.scalar (.str "session")) →
      (invoke (.delete project) st r).2.2 = .ok .unit) ∧
    (∀ (st : SessionState) (r : Response),
      jvalOptTruthy st.session_id = true →
      catch_login r = .ok () →
      jsonGet (decoded_or_empty r) "error" = some (.scalar (.str "session")) →
      (invoke .fetch_projects st r).2.2 = .ok (.text r.text)) := by
  refine ⟨?_, ?_, ?_⟩
  · intro exception ign r h
    unfold catch_response_error
    cases hl : catch_login r with
    | error f =>
      obtain ⟨m, hm⟩ := catch_login_failures_are_session_errors r f hl
      exact ⟨m, by rw [hm]⟩
    | ok u => simp [catch_response_error_msg, h]
  · intro project st r hs _h
    simp [invoke, op_delete, check_if_logged, hs]
  · intro st r hs hl _h
    simp [invoke, op_fetch_projects, check_if_logged, hs, hl]

/-- C1 (witness): the amended statement at concrete inputs — the funnel on
a concrete error-session response with the create exception, delete on the
same response, and fetch_projects on the same response. -/
theorem error_session_body_raises_session_error_witness :
    (∃ m, catch_response_error respErrorSession .CreateError false =
      .error (.raised .SessionError m)) ∧
    (invoke (.delete "project2") stLogged respErrorSession).2.2 = .ok .unit ∧
    (invoke .fetch_projects stLogged respErrorSession).2.2 = .ok (.text "x") :=
  ⟨error_session_body_raises_session_error.1 .CreateError false
     respErrorSession (by decide),
   error_session_body_raises_session_error.2.1 "project2" stLogged
     respErrorSession (by decide) (by decide),
   error_session_body_raises_session_error.2.2 stLogged respErrorSession
     (by decide) (by decide) (by decide)⟩

/-- C2 (counterexample): on a benign response the classifier applies the
checks with the login-text check strictly before the login-html check, so
the applied order differs from the order the spec states in section 4.2
(html first, then text). -/
theorem classifier_trace_differs_from_spec_order :
    (catch_response_error_trace respBenign .CreateError false).1 =
      [.loginText, .loginHtml, .decodeBody, .errorKey, .statusKey, .emptiness] ∧
    (catch_response_error_trace respBenign .CreateError false).1 ≠
      spec_check_order := by
  constructor <;> decide

/-- C2 (amended): the classifier applies its checks in the fixed order
login-text, login-html, body decoding, error-key, status-key, emptiness:
for every response the instrumented classifier (whose outcome coincides
with catch_response_error) applies the login-text check first and its
applied-check sequence is an initial segment of that fixed order. -/
theorem classifier_applies_checks_in_code_order (r : Response) (e : ExcKind)
    (i : Bool) :
    (catch_response_error_trace r e i).2 = catch_response_error r e i ∧
    (catch_response_error_trace r e i).1.head? = some .loginText ∧
    ∃ rest, (catch_response_error_trace r e i).1 ++ rest =
      [.loginText, .loginHtml, .decodeBody, .errorKey, .statusKey, .emptiness] :=
  ⟨catch_response_error_trace_spec r e i,
   catch_response_error_trace_order r e i⟩

/-- C3: every operation other than login and logout, invoked while the
session_id attribute is falsy (in particular absent), raises
NotLoggedOnError with no request issued and the state unchanged. -/
theorem not_logged_raises_before_any_request (op : Op) (st : SessionState)
    (r : Response) (hex : op.isAuthExempt = false)
    (hs : jvalOptTruthy st.session_id = false) :
    invoke op st r =
      ([], st, .error (.raised .NotLoggedOnError (.scalar .null))) := by
  have hchk : check_if_logged st =
      .error (.raised .NotLoggedOnError (.scalar .null)) := by
    simp [check_if_logged, hs]
  cases op <;>
    simp_all [invoke, Op.isAuthExempt, op_upload, op_schedule, op_fetch_flows,
      op_fetch_jobs_from_flow, op_fetch_schedule, op_unschedule, op_execute,
      op_cancel, op_create, op_delete, op_fetch_projects, op_add_permission,
      op_remove_permission, op_change_permission, op_fetch_sla,
      op_fetch_flow_execution, op_fetch_flow_execution_updates,
      op_fetch_executions_of_a_flow, op_fetch_execution_job_log,
      op_resume_flow_execution, op_fetch_running_executions_of_a_flow]

/-- C3 (witness): the create operation on the empty session state issues no
request and fails with NotLoggedOnError. -/
theorem not_logged_raises_before_any_request_witness :
    Op.isAuthExempt (.create "p" "d") = false ∧
    jvalOptTruthy stLoggedOut.session_id = false ∧
    invoke (.create "p" "d") stLoggedOut respBenign =
      ([], stLoggedOut, .error (.raised .NotLoggedOnError (.scalar .null))) :=
  ⟨rfl, rfl, not_logged_raises_before_any_request (.create "p" "d")
    stLoggedOut respBenign rfl rfl⟩

/-- C4: the three normalization examples of the spec — the empty mapping
gives read only; admin set gives all five; write set gives write and the
defaulted read. -/
theorem check_group_permissions_spec_examples :
    check_group_permissions [] =
      { admin := false, write := false, read := true, execute := false,
        schedule := false } ∧
    check_group_permissions [("admin", true)] =
      { admin := true, write := true, read := true, execute := true,
        schedule := true } ∧
    check_group_permissions [("write", true)] =
      { admin := false, write := true, read := true, execute := false,
        schedule := false } := by
  refine ⟨?_, ?_, ?_⟩ <;> decide

/-- C5: invoked logged in on a response whose decoded body is the empty
object, fetch_executions_of_a_flow — an operation that does not opt out of
the emptiness check — fails with NameError on the unbound name host in its
request builder instead of raising FetchExecutionsOfAFlowError with the
message Empty response. -/
theorem fetch_executions_of_a_flow_name_error_on_empty_body :
    invoke (.fetch_executions_of_a_flow "pp" "ff" 0 5) stLogged respEmptyObj =
      ([], stLogged, .error (.nameError "host")) := by decide

/-- C6: invoked logged in, fetch_executions_of_a_flow issues no outbound
request at all — the api builder raises NameError on the unbound name host
— instead of the single GET to the manager endpoint the per-operation
table prescribes. -/
theorem fetch_executions_of_a_flow_issues_no_request :
    invoke (.fetch_executions_of_a_flow "proj" "flow" 1 20) stLogged
        respBenign =
      ([], stLogged, .error (.nameError "host")) := by decide

/-- C7: when the classifier rejects the login response, the session state
is unchanged — the host, user and token are stored only after the
response survives the funnel. -/
theorem login_failure_leaves_session_unchanged (host user password : String)
    (st : SessionState) (r : Response) (f : Failure)
    (h : catch_response_error r .LoginError false = .error f) :
    (invoke (.login host user password) st r).2.1 = st := by
  simp [invoke, op_login, h]

/-- C7 (witness): a login against an error-session response leaves the
empty session state exactly as it was. -/
theorem login_failure_leaves_session_unchanged_witness :
    catch_response_error respErrorSession .LoginError false =
      .error (.raised .SessionError (.scalar (.str "session"))) ∧
    (invoke (.login "http://azkaban.example/" "user" "pw") stLoggedOut
      respErrorSession).2.1 = stLoggedOut :=
  ⟨by decide,
   login_failure_leaves_session_unchanged "http://azkaban.example/" "user"
     "pw" stLoggedOut respErrorSession
     (.raised .SessionError (.scalar (.str "session"))) (by decide)⟩

/-- C8: remove_permission, invoked logged in, issues exactly one request —
the changePermission call whose five permission flags are all False —
bypassing the permission normalizer. -/
theorem remove_permission_sends_all_false_permissions (project group : String)
    (st : SessionState) (r : Response)
    (h : jvalOptTruthy st.session_id = true) :
    (invoke (.remove_permission project group) st r).1 =
      [{ method := .get
         url := hostAttr st ++ "/manager"
         params := [("session.id", sidAttr st),
                    ("ajax", .scalar (.str "changePermission")),
                    ("project", .scalar (.str project)),
                    ("name", .scalar (.str group)),
                    ("permissions[admin]", .scalar (.boolean false)),
                    ("permissions[write]", .scalar (.boolean false)),
                    ("permissions[read]", .scalar (.boolean false)),
                    ("permissions[execute]", .scalar (.boolean false)),
                    ("permissions[schedule]", .scalar (.boolean false)),
                    ("group", .scalar (.boolean true))]
         files := [] }] := by
  simp [invoke, op_remove_permission, check_if_logged, h,
    remove_permission_request, call_permission_api]

/-- C8 (witness): the all-false permission request at concrete inputs. -/
theorem remove_permission_sends_all_false_permissions_witness :
    jvalOptTruthy stLogged.session_id = true ∧
    (invoke (.remove_permission "projw" "groupw") stLogged respBenign).1 =
      [{ method := .get
         url := hostAttr stLogged ++ "/manager"
         params := [("session.id", sidAttr stLogged),
                    ("ajax", .scalar (.str "changePermission")),
                    ("project", .scalar (.str "projw")),
                    ("name", .scalar (.str "groupw")),
                    ("permissions[admin]", .scalar (.boolean false)),
                    ("permissions[write]", .scalar (.boolean false)),
                    ("permissions[read]", .scalar (.boolean false)),
                    ("permissions[execute]", .scalar (.boolean false)),
                    ("permissions[schedule]", .scalar (.boolean false)),
                    ("group", .scalar (.boolean true))]
         files := [] }] :=
  ⟨rfl, remove_permission_sends_all_false_permissions "projw" "groupw"
    stLogged respBenign rfl⟩

/-- C9: whatever partial mapping the caller passes — including one that
declares read as False alongside other flags — the normalized permission
set always has read True: admin True forces it, and otherwise the five
filled flags cannot all be True, so the read default fires. -/
theorem check_group_permissions_read_always_true
    (permission_options : PermOptions) :
    (check_group_permissions permission_options).read = true := by
  cases h : lookupFlag permission_options "admin" <;>
    simp [check_group_permissions, h]

/-- C10: on a decoded body whose status is error, the status check raises
KeyError for the missing message key — the operation's typed exception
carrying the message is raised only when the message key is present. -/
theorem status_error_message_lookup (exception : ExcKind)
    (response_json : Json)
    (hs : jsonGet response_json "status" = some (.scalar (.str "error"))) :
    (jsonGet response_json "message" = none →
      catch_response_status_error exception response_json =
        .error (.keyError "message")) ∧
    (∀ m, jsonGet response_json "message" = some m →
      catch_response_status_error exception response_json =
        .error (.raised exception m)) := by
  constructor
  · intro hm
    simp [catch_response_status_error, hs, hm]
  · intro m hm
    simp [catch_response_status_error, hs, hm]

/-- C10 (witness): a body with a status of error and no message key makes
the status check fail with KeyError. -/
theorem status_error_message_lookup_witness :
    catch_response_status_error .ScheduleError
        [("status", .scalar (.str "error"))] =
      .error (.keyError "message") :=
  (status_error_message_lookup .ScheduleError
    [("status", .scalar (.str "error"))] (by decide)).1 (by decide)
